import Mathlib

/-!
Verification of the `UserOccupationGenreAnalysisOperator` pipeline
(`src/dags/operators/genere_operator.py`).

The operator loads three delimited text tables (ratings, movies, users),
inner-joins them on `item_id = movie_id` and on `user_id`, buckets actor
ages with `pd.cut(bins = [0, 20, 25, 35, 45, inf], right = False)`,
coerces the 19 genre-flag columns to numbers (unparsable cells become 0),
groups by `(age_group, occupation)` with `observed = False`, sums the
genre columns per group, takes `nlargest(5)` of each group vector, and
inserts one row per group into PostgreSQL, committing once after the loop.

Modelling conventions:
  * numeric cell values are modelled as integers (the rating column and
    the 0/1 genre indicator columns of the dataset are integral; float
    semantics are not modelled);
  * a missing / unparsable cell is `none`, mirroring NaN before
    `fillna(0)`;
  * `pd.cut` returns `Option String`: `none` is NaN (age below the lowest
    bin edge);
  * `nlargest(5)` with the default `keep` policy sorts by value
    descending and resolves equal values by original column position
    ascending; it is modelled by a stable sort of the column indices
    under that total order;
  * `groupby(..., observed = False)` reindexes the result to the full
    cartesian product of the five categorical age labels with the
    occupation values observed in the merged frame; unobserved
    combinations get zero-filled sums.  The order of occupation levels
    within the result only affects output row order, which no property
    below depends on, so occupations are kept in `dedup` order;
  * the psycopg2 connection is modelled as pending/committed statement
    lists: `execute` appends to pending, `commit` moves pending to
    committed, and closing an errored connection rolls pending back.
-/

namespace SentStream

/-- The 19 genre-flag column names, `movies.columns[5:]` in the source,
in declared order. -/
def genreColumns : List String :=
  ["unknown", "Action", "Adventure", "Animation", "Children\x27s", "Comedy",
   "Crime", "Documentary", "Drama", "Fantasy", "Film-Noir", "Horror",
   "Musical", "Mystery", "Romance", "Sci-Fi", "Thriller", "War", "Western"]

/-- `age_labels = ["<20", "20-25", "25-35", "35-45", "45+"]`. -/
def ageLabels : List String := ["<20", "20-25", "25-35", "35-45", "45+"]

/-- A row of the ratings table: `user_id, item_id, rating, timestamp`. -/
structure Rating where
  user_id : ℤ
  item_id : ℤ
  rating : ℤ
  timestamp : ℤ
deriving DecidableEq

/-- A row of the movies table, restricted to the columns the pipeline
projects: `movie_id` plus the 19 genre-flag cells (a cell is `none` when
missing or non-numeric, before coercion). -/
structure Movie where
  movie_id : ℤ
  flags : List (Option ℤ)
deriving DecidableEq

/-- A row of the users table, restricted to the projected columns
`user_id, age, occupation`. -/
structure User where
  user_id : ℤ
  age : ℤ
  occupation : String
deriving DecidableEq

/-- A row of `merged_data`: one denormalized row per surviving
interaction, carrying the genre flags plus actor age and occupation. -/
structure DRow where
  user_id : ℤ
  item_id : ℤ
  rating : ℤ
  flags : List (Option ℤ)
  age : ℤ
  occupation : String
deriving DecidableEq

/-- A row of the persisted result: `(age_group, occupation, top_genres)`. -/
structure TopRow where
  age_group : String
  occupation : String
  top_genres : List String
deriving DecidableEq

/-- `ratings.merge(movies[...], left_on = 'item_id', right_on = 'movie_id')`:
inner equi-join; each rating row pairs with every movie row whose
`movie_id` equals its `item_id`. -/
def joinItems (ratings : List Rating) (movies : List Movie) : List (Rating × Movie) :=
  ratings.flatMap fun r =>
    (movies.filter fun m => m.movie_id == r.item_id).map fun m => (r, m)

/-- `.merge(users[['user_id', 'age', 'occupation']], on = 'user_id')`:
inner equi-join of the intermediate frame with the users table. -/
def joinUsers (rm : List (Rating × Movie)) (users : List User) : List DRow :=
  rm.flatMap fun p =>
    (users.filter fun u => u.user_id == p.1.user_id).map fun u =>
      ⟨p.1.user_id, p.1.item_id, p.1.rating, p.2.flags, u.age, u.occupation⟩

/-- The two sequential inner joins producing `merged_data`. -/
def mergeAll (ratings : List Rating) (movies : List Movie) (users : List User) :
    List DRow :=
  joinUsers (joinItems ratings movies) users

/-- `pd.cut(age, bins = [0, 20, 25, 35, 45, inf], labels = age_labels,
right = False)`: half-open lower-inclusive intervals; a value below the
lowest edge falls outside every bin and gets NaN (`none`). -/
def ageBucket (a : ℤ) : Option String :=
  if 0 ≤ a ∧ a < 20 then some "<20"
  else if 20 ≤ a ∧ a < 25 then some "20-25"
  else if 25 ≤ a ∧ a < 35 then some "25-35"
  else if 35 ≤ a ∧ a < 45 then some "35-45"
  else if 45 ≤ a then some "45+"
  else none

/-- `pd.to_numeric(errors = 'coerce').fillna(0)` on a single cell:
a missing or unparsable value becomes 0. -/
def coerce (x : Option ℤ) : ℤ := x.getD 0

/-- The occupation levels observed in the merged frame (the non-categorical
grouping key's levels; order is don't-care, see the module comment). -/
def occupations (rows : List DRow) : List String :=
  (rows.map DRow.occupation).dedup

/-- The row index of `genre_summary` under `observed = False`: the full
cartesian product of the five categorical age labels with the observed
occupation levels (`MultiIndex.from_product` semantics). -/
def groupKeys (rows : List DRow) : List (String × String) :=
  ageLabels.flatMap fun l => (occupations rows).map fun o => (l, o)

/-- Whether a merged row belongs to the `(age label, occupation)` group.
Rows whose age bucket is NaN belong to no group (`groupby` drops NaN keys). -/
def inGroup (k : String × String) (r : DRow) : Bool :=
  ageBucket r.age == some k.1 && r.occupation == k.2

/-- The member rows of one group. -/
def groupRows (rows : List DRow) (k : String × String) : List DRow :=
  rows.filter (inGroup k)

/-- The sum of one coerced genre column over a list of rows. -/
def colSum (rows : List DRow) (i : Nat) : ℤ :=
  (rows.map fun r => coerce (r.flags.getD i none)).sum

/-- One row of `genre_summary`: the element-wise sum of the coerced genre
columns over the group's member rows (zero vector for an unobserved
combination of the product index). -/
def groupSum (rows : List DRow) (k : String × String) : List ℤ :=
  (List.range genreColumns.length).map fun i => colSum (groupRows rows k) i

/-- Entry access into a group vector (0 outside the 19 columns). -/
def val (v : List ℤ) (i : Nat) : ℤ := v.getD i 0

/-- The total order `nlargest` ranks column indices by: larger summed
value first, and among equal values the smaller declared column index
first (the default keep-first policy). -/
def rank (v : List ℤ) (i j : Nat) : Prop :=
  val v j < val v i ∨ (val v i = val v j ∧ i ≤ j)

instance (v : List ℤ) : DecidableRel (rank v) := fun i j => by
  unfold rank; infer_instance

instance (v : List ℤ) : IsTotal Nat (rank v) :=
  ⟨by intro a b; unfold rank; omega⟩

instance (v : List ℤ) : IsTrans Nat (rank v) :=
  ⟨by intro a b c; unfold rank; omega⟩

/-- All 19 column indices ranked by `rank` (a stable sort realizes the
deterministic `nlargest` order). -/
def rankedIdx (v : List ℤ) : List Nat :=
  (List.range genreColumns.length).insertionSort (rank v)

/-- The indices of `x.nlargest(5)`. -/
def top5Idx (v : List ℤ) : List Nat := (rankedIdx v).take 5

/-- `x.nlargest(5).index.tolist()`: the five top column names. -/
def top5 (v : List ℤ) : List String :=
  (top5Idx v).map fun i => genreColumns.getD i ""

/-- The whole in-memory computation of `execute`: merge, bucket, group
with `observed = False`, sum, and take the top five genres per group. -/
def analyze (ratings : List Rating) (movies : List Movie) (users : List User) :
    List TopRow :=
  let merged := mergeAll ratings movies users
  (groupKeys merged).map fun k => ⟨k.1, k.2, top5 (groupSum merged k)⟩

/-- The errors raised by the loading stage, both of which abort
`execute` before any further stage: the source is unreadable
(`FileNotFoundError`), or a row's field count exceeds the established
row width (pandas `ParserError`, "Expected N fields, saw M"). -/
inductive DataSourceError where
  | unreadable
  | malformedRow
deriving DecidableEq

/-- The row width the C parser tokenizes against: the larger of the
schema width (the explicit `names`) and the first row's field count
(when the first row is uniformly wider than `names`, the extra leading
fields become the implicit index rather than an error). -/
def establishedWidth (nCols : Nat) (raws : List (List String)) : Nat :=
  max nCols (raws.headD []).length

/-- Shaping one tokenized row to the schema: fields fill left to right,
missing trailing fields become NaN (`none`), and the leading
`width - nCols` positions are consumed as the implicit index. -/
def shapeRow (nCols width : Nat) (row : List String) : List (Option String) :=
  (row.map some ++ List.replicate (width - row.length) none).drop (width - nCols)

/-- `pd.read_csv(path, sep, names, header = None)` at the row-shape
level: an unreadable source raises `FileNotFoundError`; a row with more
fields than the established width raises `ParserError`; otherwise each
record is shaped to the schema width — in particular a row with fewer
fields than the schema is padded with NaN (`none`), not rejected. -/
def loadTable (readable : Bool) (nCols : Nat) (raws : List (List String)) :
    Except DataSourceError (List (List (Option String))) :=
  if readable then
    if raws.all fun row => row.length ≤ establishedWidth nCols raws then
      .ok (raws.map (shapeRow nCols (establishedWidth nCols raws)))
    else .error .malformedRow
  else .error .unreadable

/-- A numeric cell: missing stays missing, otherwise parsed as an
integer (`none` when unparsable, mirroring NaN under
`pd.to_numeric(errors = 'coerce')`). -/
def parseCell (c : Option String) : Option ℤ :=
  c.bind String.toInt?

/-- Typing a loaded ratings record: columns
`user_id, item_id, rating, timestamp`. -/
def parseRating (row : List (Option String)) : Rating :=
  ⟨coerce (parseCell (row.getD 0 none)), coerce (parseCell (row.getD 1 none)),
   coerce (parseCell (row.getD 2 none)), coerce (parseCell (row.getD 3 none))⟩

/-- Typing a loaded movies record: `movie_id` is column 0 and the 19
genre-flag cells are columns 5 through 23 (`movies.columns[5:]`). -/
def parseMovie (row : List (Option String)) : Movie :=
  ⟨coerce (parseCell (row.getD 0 none)), (row.drop 5).map parseCell⟩

/-- Typing a loaded users record: columns
`user_id, age, gender, occupation, zip_code`; only columns 0, 1 and 3
are projected. -/
def parseUser (row : List (Option String)) : User :=
  ⟨coerce (parseCell (row.getD 0 none)), coerce (parseCell (row.getD 1 none)),
   (row.getD 3 none).getD ""⟩

/-- A delimited text source: whether it can be read, and its rows as
already-split field lists. -/
structure Source where
  readable : Bool
  rows : List (List String)

/-- Schema width of the ratings source. -/
def ratingsCols : Nat := 4

/-- Schema width of the movies source (5 metadata + 19 genre columns). -/
def moviesCols : Nat := 24

/-- Schema width of the users source. -/
def usersCols : Nat := 5

/-- `execute` up to the persistence call: the three loads happen first
and any load failure aborts before the joins and the aggregation run. -/
def runPipeline (sr sm su : Source) : Except DataSourceError (List TopRow) := do
  let tr ← loadTable sr.readable ratingsCols sr.rows
  let tm ← loadTable sm.readable moviesCols sm.rows
  let tu ← loadTable su.readable usersCols su.rows
  pure (analyze (tr.map parseRating) (tm.map parseMovie) (tu.map parseUser))

/-- The psycopg2 connection state: statements executed but not yet
committed, and durably committed records. -/
structure PgConn where
  pending : List TopRow
  committed : List TopRow
deriving DecidableEq

/-- A fresh connection. -/
def emptyConn : PgConn := ⟨[], []⟩

/-- `cursor.execute("INSERT ...")`: the record joins the open
transaction's pending work. -/
def insertRow (c : PgConn) (r : TopRow) : PgConn :=
  ⟨c.pending ++ [r], c.committed⟩

/-- `conn.commit()`: all pending work becomes durable at once. -/
def commitConn (c : PgConn) : PgConn :=
  ⟨[], c.committed ++ c.pending⟩

/-- Closing a connection whose transaction was never committed (the
exception path): pending work is rolled back. -/
def rollbackConn (c : PgConn) : PgConn :=
  ⟨[], c.committed⟩

/-- The insert loop of `save_to_postgres`.  `failAt = some i` injects a
`PersistenceError` while executing the insert of record `i` (0-based
over the whole run); the loop aborts there and the connection closes
uncommitted.  `idx` is the index of the next record. -/
def insertLoop (failAt : Option Nat) : Nat → PgConn → List TopRow → Except PgConn PgConn
  | _, c, [] => .ok c
  | idx, c, r :: rs =>
    if failAt = some idx then .error (rollbackConn c)
    else insertLoop failAt (idx + 1) (insertRow c r) rs

/-- `save_to_postgres`: run every insert, then `conn.commit()` once after
the loop.  The commit statement is only reached when no insert raised. -/
def saveToPostgres (failAt : Option Nat) (rows : List TopRow) : Except PgConn PgConn :=
  match insertLoop failAt 0 emptyConn rows with
  | .ok c => .ok (commitConn c)
  | .error c => .error c

/-- The records that are durable after the write attempt, whether or not
it succeeded. -/
def committedAfter (e : Except PgConn PgConn) : List TopRow :=
  match e with
  | .ok c => c.committed
  | .error c => c.committed

/-- Single-interaction scenario of the spec: one rating of 5 by user 1
(age 22, engineer) on item 1, whose only set genre flag is Comedy
(declared column index 5). -/
def cFlags : List (Option ℤ) :=
  [some 0, some 0, some 0, some 0, some 0, some 1, some 0, some 0, some 0, some 0,
   some 0, some 0, some 0, some 0, some 0, some 0, some 0, some 0, some 0]

/-- Scenario ratings table. -/
def cRatings : List Rating := [⟨1, 1, 5, 881250949⟩]

/-- Scenario movies table. -/
def cMovies : List Movie := [⟨1, cFlags⟩]

/-- Scenario users table. -/
def cUsers : List User := [⟨1, 22, "engineer"⟩]

/-- The scenario's merged frame. -/
def cMerged : List DRow := mergeAll cRatings cMovies cUsers

/-- The scenario's group vector for the one observed combination. -/
def cVec : List ℤ := groupSum cMerged ("20-25", "engineer")

/-! ## Helper lemmas -/

/-- Entry `i` of a group's summed vector is the coerced column sum over
the group's member rows. -/
theorem val_groupSum (rows : List DRow) (k : String × String) (i : Nat)
    (h : i < genreColumns.length) :
    val (groupSum rows k) i = colSum (groupRows rows k) i := by
  unfold val groupSum
  rw [List.getD_eq_getElem _ _ (by simpa using h)]
  simp

/-- Membership in the `observed = False` result index: all five age
labels, crossed with the occupations observed in the merged frame. -/
theorem mem_groupKeys (rows : List DRow) (l o : String) :
    (l, o) ∈ groupKeys rows ↔ l ∈ ageLabels ∧ o ∈ rows.map DRow.occupation := by
  unfold groupKeys occupations
  simp only [List.mem_flatMap, List.mem_map, List.mem_dedup]
  constructor
  · rintro ⟨a, ha, b, hb, he⟩
    obtain ⟨rfl, rfl⟩ := Prod.mk.injEq .. ▸ he
    exact ⟨ha, hb⟩
  · rintro ⟨hl, ho⟩
    exact ⟨l, hl, o, ho, rfl⟩

/-- The result index contains each pair at most once. -/
theorem groupKeys_nodup (rows : List DRow) : (groupKeys rows).Nodup := by
  have he : groupKeys rows = ageLabels ×ˢ occupations rows := rfl
  rw [he]
  exact List.Nodup.product (by decide) (List.nodup_dedup _)

/-- A row whose age bucket is NaN satisfies no group predicate. -/
theorem inGroup_eq_false_of_bucket_none {r : DRow} (hb : ageBucket r.age = none)
    (k : String × String) : inGroup k r = false := by
  unfold inGroup
  rw [hb]
  simp

/-! ## C5: age bucketing -/

/-- C5: for every finite non-negative age, `pd.cut` with bins
`[0, 20, 25, 35, 45, inf]` and `right = False` assigns exactly one label
according to the half-open lower-inclusive partition `[0,20) → "<20"`,
`[20,25) → "20-25"`, `[25,35) → "25-35"`, `[35,45) → "35-45"`,
`[45,inf) → "45+"`; the five buckets are exhaustive and pairwise disjoint
over the non-negative ages. -/
theorem c5_bucket_partition (a : ℤ) (h : 0 ≤ a) :
    (ageBucket a = some "<20" ↔ a < 20) ∧
    (ageBucket a = some "20-25" ↔ 20 ≤ a ∧ a < 25) ∧
    (ageBucket a = some "25-35" ↔ 25 ≤ a ∧ a < 35) ∧
    (ageBucket a = some "35-45" ↔ 35 ≤ a ∧ a < 45) ∧
    (ageBucket a = some "45+" ↔ 45 ≤ a) ∧
    ∃ l ∈ ageLabels, ageBucket a = some l := by
  unfold ageBucket ageLabels
  split_ifs with h1 h2 h3 h4 h5 <;> simp_all <;> omega

/-- C5 witness: age 22 falls in the bucket `"20-25"` and in no other. -/
theorem c5_bucket_partition_witness :
    (ageBucket 22 = some "<20" ↔ (22 : ℤ) < 20) ∧
    (ageBucket 22 = some "20-25" ↔ (20 : ℤ) ≤ 22 ∧ (22 : ℤ) < 25) ∧
    (ageBucket 22 = some "25-35" ↔ (25 : ℤ) ≤ 22 ∧ (22 : ℤ) < 35) ∧
    (ageBucket 22 = some "35-45" ↔ (35 : ℤ) ≤ 22 ∧ (22 : ℤ) < 45) ∧
    (ageBucket 22 = some "45+" ↔ (45 : ℤ) ≤ 22) ∧
    ∃ l ∈ ageLabels, ageBucket 22 = some l :=
  c5_bucket_partition 22 (by decide)

/-! ## C9: negative ages -/

/-- C9: a merged row with a negative age gets a NaN bucket from
`pd.cut`, belongs to no `(age_group, occupation)` group, and contributes
nothing to any group's summed vector. -/
theorem c9_negative_age_excluded (r : DRow) (h : r.age < 0)
    (rows₁ rows₂ : List DRow) :
    ageBucket r.age = none ∧
    (∀ k : String × String,
      groupSum (rows₁ ++ r :: rows₂) k = groupSum (rows₁ ++ rows₂) k) ∧
    ∀ k : String × String, r ∉ groupRows (rows₁ ++ r :: rows₂) k := by
  have hb : ageBucket r.age = none := by
    unfold ageBucket
    split_ifs <;> first | rfl | (exfalso; omega)
  have hg : ∀ k : String × String, inGroup k r = false :=
    inGroup_eq_false_of_bucket_none hb
  have hrows : ∀ k : String × String,
      groupRows (rows₁ ++ r :: rows₂) k = groupRows (rows₁ ++ rows₂) k := by
    intro k
    unfold groupRows
    simp [List.filter_append, List.filter_cons, hg k]
  refine ⟨hb, fun k => by unfold groupSum; rw [hrows k], fun k hmem => ?_⟩
  have := (List.mem_filter.mp hmem).2
  rw [hg k] at this
  exact Bool.false_ne_true this

/-- C9 witness: a concrete merged row of age -3 has a NaN bucket, joins
no group, and leaves the scenario's group sums untouched. -/
theorem c9_negative_age_excluded_witness :
    ageBucket (DRow.age ⟨1, 1, 5, cFlags, -3, "clerk"⟩) = none ∧
    (∀ k : String × String,
      groupSum ([] ++ ⟨1, 1, 5, cFlags, -3, "clerk"⟩ :: cMerged) k =
        groupSum ([] ++ cMerged) k) ∧
    ∀ k : String × String,
      (⟨1, 1, 5, cFlags, -3, "clerk"⟩ : DRow) ∉
        groupRows ([] ++ ⟨1, 1, 5, cFlags, -3, "clerk"⟩ :: cMerged) k :=
  c9_negative_age_excluded ⟨1, 1, 5, cFlags, -3, "clerk"⟩ (by decide) [] cMerged

/-! ## C1: group sums are unweighted flag sums -/

/-- C1 counterexample: in the single-interaction scenario (rating 5,
Comedy flag 1) the Comedy sum of group `("20-25", "engineer")` is 1, not
the rating-weighted 5 the claim requires. -/
theorem c1_counterexample :
    val (groupSum cMerged ("20-25", "engineer")) 5 = 1 ∧
    ¬ val (groupSum cMerged ("20-25", "engineer")) 5 = 5 := by decide

/-- C1 (amended): each merged interaction contributes its coerced genre
flag — unweighted by its rating — to each category's group sum; rows
outside the group contribute nothing. -/
theorem c1_unweighted_contribution (rows : List DRow) (r : DRow)
    (k : String × String) (i : Nat) (h : i < genreColumns.length) :
    val (groupSum (r :: rows) k) i =
      (if inGroup k r then coerce (r.flags.getD i none) else 0) +
        val (groupSum rows k) i := by
  rw [val_groupSum _ _ _ h, val_groupSum _ _ _ h]
  unfold groupRows
  rw [List.filter_cons]
  by_cases hg : inGroup k r
  · simp [hg, colSum]
  · simp [hg]

/-- C1 witness: the scenario row contributes exactly its Comedy flag 1
to the Comedy sum of its group. -/
theorem c1_unweighted_contribution_witness :
    val (groupSum ((⟨1, 1, 5, cFlags, 22, "engineer"⟩ : DRow) :: []) ("20-25", "engineer")) 5 =
      (if inGroup ("20-25", "engineer") ⟨1, 1, 5, cFlags, 22, "engineer"⟩ then
        coerce (cFlags.getD 5 none) else 0) +
        val (groupSum ([] : List DRow) ("20-25", "engineer")) 5 :=
  c1_unweighted_contribution [] ⟨1, 1, 5, cFlags, 22, "engineer"⟩
    ("20-25", "engineer") 5 (by decide)

/-! ## C2: which groups appear -/

/-- C2 counterexample: in the single-interaction scenario the pair
`("<20", "engineer")` occurs zero times in the merged data, yet it is
present in the aggregation's result index (`observed = False`
zero-fills the cross-product of the five labels with each observed
occupation). -/
theorem c2_counterexample :
    ("<20", "engineer") ∈ groupKeys cMerged ∧
    groupRows cMerged ("<20", "engineer") = [] := by decide

/-- C2 (amended): the result contains exactly one group per pair of an
age label with an occupation observed in the merged data — including
zero-occurrence pairs for observed occupations — and pairs whose
occupation never occurs in the merged data are absent. -/
theorem c2_observed_false_keys (rows : List DRow) (l o : String) :
    ((l, o) ∈ groupKeys rows ↔ l ∈ ageLabels ∧ o ∈ rows.map DRow.occupation) ∧
    (groupKeys rows).Nodup :=
  ⟨mem_groupKeys rows l o, groupKeys_nodup rows⟩

/-! ## C3 and C10: top-5 selection -/

/-- The ranked index list is a permutation of the 19 column indices. -/
theorem rankedIdx_perm (v : List ℤ) :
    (rankedIdx v).Perm (List.range genreColumns.length) :=
  List.perm_insertionSort _ _

/-- The ranked index list is sorted under the `nlargest` order. -/
theorem rankedIdx_sorted (v : List ℤ) : List.Sorted (rank v) (rankedIdx v) :=
  List.sorted_insertionSort _ _

/-- The ranked index list has no duplicates. -/
theorem rankedIdx_nodup (v : List ℤ) : (rankedIdx v).Nodup :=
  ((rankedIdx_perm v).nodup_iff).mpr (List.nodup_range _)

/-- Membership in the ranked index list. -/
theorem mem_rankedIdx (v : List ℤ) (i : Nat) :
    i ∈ rankedIdx v ↔ i < genreColumns.length := by
  rw [(rankedIdx_perm v).mem_iff, List.mem_range]

/-- C3: every result row's `top_genres` has between 1 and 5 entries (in
fact exactly 5), its entries are pairwise ordered by strictly descending
summed value with ties broken by ascending declared column index, and
every selected column beats every unselected column under that
deterministic order; the genre names are read off the selected indices
in rank order. -/
theorem c3_top5_selection (v : List ℤ) :
    1 ≤ (top5 v).length ∧ (top5 v).length ≤ 5 ∧
    (top5Idx v).Pairwise
      (fun i j => val v j < val v i ∨ (val v i = val v j ∧ i < j)) ∧
    (∀ i ∈ top5Idx v, ∀ j < genreColumns.length, j ∉ top5Idx v →
      val v j < val v i ∨ (val v i = val v j ∧ i < j)) ∧
    top5 v = (top5Idx v).map fun i => genreColumns.getD i "" := by
  have hlen : (top5 v).length = 5 := by
    unfold top5 top5Idx
    rw [List.length_map, List.length_take, (rankedIdx_perm v).length_eq,
      List.length_range]
    rfl
  have hsorted := rankedIdx_sorted v
  have hpw : (top5Idx v).Pairwise (rank v) :=
    hsorted.sublist (List.take_sublist 5 (rankedIdx v))
  have hnd : (top5Idx v).Nodup :=
    (rankedIdx_nodup v).sublist (List.take_sublist 5 (rankedIdx v))
  refine ⟨by omega, by omega, ?_, ?_, rfl⟩
  · have := List.pairwise_and_iff.mpr ⟨hpw, hnd⟩
    refine this.imp ?_
    rintro a b ⟨hr | ⟨he, hle⟩, hne⟩
    · exact Or.inl hr
    · exact Or.inr ⟨he, lt_of_le_of_ne hle hne⟩
  · intro i hi j hj hjnot
    have hsplit : rankedIdx v = top5Idx v ++ (rankedIdx v).drop 5 :=
      (List.take_append_drop 5 (rankedIdx v)).symm
    have hjr : j ∈ rankedIdx v := (mem_rankedIdx v j).mpr hj
    have hjdrop : j ∈ (rankedIdx v).drop 5 := by
      rw [hsplit] at hjr
      rcases List.mem_append.mp hjr with h | h
      · exact absurd h hjnot
      · exact h
    have hrank : rank v i j := by
      have := hsplit ▸ hsorted
      exact (List.pairwise_append.mp this).2.2 i hi j hjdrop
    have hne : i ≠ j := fun he => hjnot (he ▸ hi)
    rcases hrank with hr | ⟨he, hle⟩
    · exact Or.inl hr
    · exact Or.inr ⟨he, lt_of_le_of_ne hle hne⟩

/-- C3 witness: in the scenario's group vector, the selected Comedy
column (index 5) beats the unselected index 4 under the deterministic
order. -/
theorem c3_top5_selection_witness :
    val cVec 4 < val cVec 5 ∨ (val cVec 5 = val cVec 4 ∧ 5 < 4) :=
  (c3_top5_selection cVec).2.2.2.1 5 (by decide) 4 (by decide) (by decide)

/-- C10: every result row's `top_genres` has exactly 5 names, each drawn
from the 19 declared genre columns, and the placeholder column
`"unknown"` competes as an ordinary category: it appears in the output
of the single-interaction scenario (in its zero-filled rows and as a
zero-sum filler of the observed group's row). -/
theorem c10_top5_shape :
    (∀ v : List ℤ, (top5 v).length = 5) ∧
    (∀ v : List ℤ, ∀ g ∈ top5 v, g ∈ genreColumns) ∧
    ∃ row ∈ analyze cRatings cMovies cUsers, "unknown" ∈ row.top_genres := by
  refine ⟨?_, ?_, ?_⟩
  · intro v
    unfold top5 top5Idx
    rw [List.length_map, List.length_take, (rankedIdx_perm v).length_eq,
      List.length_range]
    rfl
  · intro v g hg
    unfold top5 at hg
    obtain ⟨i, hi, rfl⟩ := List.mem_map.mp hg
    have hilt : i < genreColumns.length :=
      (mem_rankedIdx v i).mp (List.mem_of_mem_take hi)
    rw [List.getD_eq_getElem _ _ hilt]
    exact List.getElem_mem _
  · exact ⟨⟨"<20", "engineer",
      ["unknown", "Action", "Adventure", "Animation", "Children\x27s"]⟩,
      by decide, by decide⟩

/-- C10 witness: the name of a concretely selected column — `"Comedy"`
is in the scenario vector's top five — is one of the declared genre
columns. -/
theorem c10_top5_shape_witness : "Comedy" ∈ genreColumns :=
  c10_top5_shape.2.1 cVec "Comedy" (by decide)


/-! ## C4: persistence transactionality -/

/-- A failure-free insert loop accumulates every record as pending work
of the single open transaction. -/
theorem insertLoop_none (rows : List TopRow) :
    ∀ (j : Nat) (c : PgConn), insertLoop none j c rows = .ok ⟨c.pending ++ rows, c.committed⟩ := by
  induction rows with
  | nil => intro j c; simp [insertLoop]
  | cons r rs ih =>
    intro j c
    simp [insertLoop, insertRow, ih]

/-- If a `PersistenceError` hits one of the remaining records, the loop
aborts there and the connection closes with its transaction rolled back:
only what was committed before the loop survives. -/
theorem insertLoop_fail (rows : List TopRow) :
    ∀ (j k : Nat) (c : PgConn), k < rows.length →
      insertLoop (some (j + k)) j c rows = .error ⟨[], c.committed⟩ := by
  induction rows with
  | nil => intro j k c hk; simp at hk
  | cons r rs ih =>
    intro j k c hk
    cases k with
    | zero => simp [insertLoop, rollbackConn]
    | succ k' =>
      have hne : ¬ (some (j + (k' + 1)) = some j) := by simp
      have harith : j + (k' + 1) = (j + 1) + k' := by omega
      rw [insertLoop, if_neg hne, harith,
        ih (j + 1) k' (insertRow c r) (by simpa using hk)]
      rfl

/-- C4 counterexample: with two records to insert and a
`PersistenceError` while inserting the second, nothing is durably
committed — in particular not the first record, which the claim says
stays committed. -/
theorem c4_counterexample :
    committedAfter (saveToPostgres (some 1)
      [⟨"20-25", "engineer", ["Comedy"]⟩, ⟨"45+", "doctor", ["Action"]⟩]) = [] ∧
    ([] : List TopRow) ≠ [⟨"20-25", "engineer", ["Comedy"]⟩] := by decide

/-- C4 (amended): the write loop runs inside one transaction whose only
`commit` comes after the loop; a `PersistenceError` partway aborts the
remainder and rolls back, so no record of the run is committed, while a
failure-free run commits every record at once. -/
theorem c4_single_commit (rows : List TopRow) (i : Nat) :
    (i < rows.length → saveToPostgres (some i) rows = .error ⟨[], []⟩) ∧
    saveToPostgres none rows = .ok ⟨[], rows⟩ := by
  constructor
  · intro hi
    unfold saveToPostgres
    have h := insertLoop_fail rows 0 i emptyConn hi
    rw [Nat.zero_add] at h
    rw [h]
    rfl
  · unfold saveToPostgres
    rw [insertLoop_none rows 0 emptyConn]
    simp [emptyConn, commitConn]

/-- C4 witness: a one-record write failing at record 0 commits nothing,
and the same write without failure commits the record. -/
theorem c4_single_commit_witness :
    saveToPostgres (some 0) [⟨"45+", "doctor", ["Action"]⟩] = .error ⟨[], []⟩ ∧
    saveToPostgres none [⟨"45+", "doctor", ["Action"]⟩] = .ok ⟨[], [⟨"45+", "doctor", ["Action"]⟩]⟩ :=
  ⟨(c4_single_commit [⟨"45+", "doctor", ["Action"]⟩] 0).1 (by decide),
   (c4_single_commit [⟨"45+", "doctor", ["Action"]⟩] 0).2⟩

/-! ## C8: loader failure behavior -/

/-- C8 counterexample: a readable source containing a row with fewer
fields than the 4-column ratings schema loads successfully — the missing
fields become NaN — instead of failing as the claim requires. -/
theorem c8_counterexample :
    loadTable true 4 [["1", "2"]] = .ok [[some "1", some "2", none, none]] ∧
    loadTable true 4 [["1", "2"]] ≠ .error .unreadable := by
  refine ⟨rfl, ?_⟩
  intro h
  exact Except.noConfusion h

/-- A shaped record always has the schema width. -/
theorem length_shapeRow (nCols width : Nat) (row : List String)
    (h : row.length ≤ width) (hn : nCols ≤ width) :
    (shapeRow nCols width row).length = nCols := by
  unfold shapeRow
  rw [List.length_drop, List.length_append, List.length_map,
    List.length_replicate]
  omega

/-- C8 (amended): the loader fails with a `DataSourceError` when a
source is unreadable or when a row has more fields than the established
width (`ParserError`), and either failure aborts the pipeline before
the joins and aggregation run; a source whose rows all fit the schema
width loads, every loaded record is shaped to the schema width, and a
row with fewer fields than the schema is padded with missing values
rather than rejected. -/
theorem c8_loader_behavior (n : Nat) (raws mrows : List (List String))
    (su : Source) (t : List (List (Option String))) :
    loadTable false n raws = .error .unreadable ∧
    runPipeline ⟨false, raws⟩ ⟨true, mrows⟩ su = .error .unreadable ∧
    ((∀ row ∈ raws, row.length ≤ n) → (loadTable true n raws).isOk = true) ∧
    (loadTable true n raws = .ok t → ∀ row ∈ t, row.length = n) ∧
    ((raws.headD []).length ≤ n → (∃ row ∈ raws, n < row.length) →
      loadTable true n raws = .error .malformedRow) ∧
    ∀ sr sm su₂ : Source,
      loadTable sr.readable ratingsCols sr.rows = .error .malformedRow →
        runPipeline sr sm su₂ = .error .malformedRow := by
  refine ⟨rfl, rfl, ?_, ?_, ?_, ?_⟩
  · intro hfit
    unfold loadTable
    rw [if_pos rfl, if_pos ?_]
    · rfl
    · rw [List.all_eq_true]
      intro row hrow
      have h1 : row.length ≤ n := hfit row hrow
      have h2 : n ≤ establishedWidth n raws := Nat.le_max_left _ _
      simpa using le_trans h1 h2
  · intro ht row hrow
    unfold loadTable at ht
    rw [if_pos rfl] at ht
    by_cases hall : raws.all (fun row => row.length ≤ establishedWidth n raws)
    · rw [if_pos hall] at ht
      obtain rfl := (Except.ok.injEq _ _).mp ht
      obtain ⟨raw, hraw, rfl⟩ := List.mem_map.mp hrow
      have hle : raw.length ≤ establishedWidth n raws := by
        simpa using List.all_eq_true.mp hall raw hraw
      exact length_shapeRow n _ raw hle (Nat.le_max_left _ _)
    · rw [if_neg hall] at ht
      exact Except.noConfusion ht
  · intro hfirst hwide
    unfold loadTable
    rw [if_pos rfl, if_neg ?_]
    rw [Bool.not_eq_true, List.all_eq_false]
    obtain ⟨row, hrow, hlen⟩ := hwide
    refine ⟨row, hrow, ?_⟩
    have hw : establishedWidth n raws = n := Nat.max_eq_left hfirst
    simp [hw]
    omega
  · intro sr sm su₂ hl
    unfold runPipeline
    rw [hl]
    rfl

/-- C8 witness: the short-row source loads padded to the schema width;
a readable ratings source whose second row has five fields against the
four-column schema fails with the malformed-row error, and that failure
aborts the concrete pipeline run, as does an unreadable source. -/
theorem c8_loader_behavior_witness :
    loadTable false 4 [["1", "2"]] = .error .unreadable ∧
    runPipeline ⟨false, [["1", "2"]]⟩ ⟨true, []⟩ ⟨true, []⟩ = .error .unreadable ∧
    (loadTable true 4 [["1", "2"]]).isOk = true ∧
    (∀ row ∈ [[some "1", some "2", none, none]], row.length = 4) ∧
    loadTable true 4 [["1", "2", "3", "4"], ["1", "2", "3", "4", "5"]] =
      .error .malformedRow ∧
    runPipeline ⟨true, [["1", "2", "3", "4"], ["1", "2", "3", "4", "5"]]⟩
      ⟨true, []⟩ ⟨true, []⟩ = .error .malformedRow :=
  ⟨(c8_loader_behavior 4 [["1", "2"]] [] ⟨true, []⟩ []).1,
   (c8_loader_behavior 4 [["1", "2"]] [] ⟨true, []⟩ []).2.1,
   (c8_loader_behavior 4 [["1", "2"]] [] ⟨true, []⟩ []).2.2.1 (by decide),
   (c8_loader_behavior 4 [["1", "2"]] [] ⟨true, []⟩
     [[some "1", some "2", none, none]]).2.2.2.1 rfl,
   (c8_loader_behavior 4 [["1", "2", "3", "4"], ["1", "2", "3", "4", "5"]] []
     ⟨true, []⟩ []).2.2.2.2.1 (by decide) (by decide),
   (c8_loader_behavior 4 [["1", "2"]] [] ⟨true, []⟩ []).2.2.2.2.2
     ⟨true, [["1", "2", "3", "4"], ["1", "2", "3", "4", "5"]]⟩ ⟨true, []⟩
     ⟨true, []⟩ (by rfl)⟩


/-! ## C6: join cardinality -/

/-- With pairwise-distinct keys, at most one row matches a given key. -/
theorem length_filter_key_le_one {α : Type} (l : List α) (f : α → ℤ) (a : ℤ)
    (h : (l.map f).Nodup) : (l.filter fun x => f x == a).length ≤ 1 := by
  induction l with
  | nil => simp
  | cons x xs ih =>
    rw [List.map_cons, List.nodup_cons] at h
    rw [List.filter_cons]
    by_cases hx : f x == a
    · have hnil : (xs.filter fun y => f y == a) = [] := by
        rw [List.filter_eq_nil_iff]
        intro y hy hya
        have h1 : f y = a := by simpa using hya
        have h2 : f x = a := by simpa using hx
        exact h.1 ((h1.trans h2.symm) ▸ List.mem_map_of_mem f hy)
      simp [hx, hnil]
    · simp [hx, ih h.2]

/-- Some row matches the key iff the filtered match list is non-empty. -/
theorem length_filter_key_pos_iff {α : Type} (l : List α) (f : α → ℤ) (a : ℤ) :
    0 < (l.filter fun x => f x == a).length ↔ ∃ x ∈ l, f x = a := by
  rw [List.length_pos_iff_exists_mem]
  constructor
  · rintro ⟨x, hx⟩
    obtain ⟨hmem, hkey⟩ := List.mem_filter.mp hx
    exact ⟨x, hmem, by simpa using hkey⟩
  · rintro ⟨x, hmem, hkey⟩
    exact ⟨x, List.mem_filter.mpr ⟨hmem, by simpa using hkey⟩⟩

/-- Unfolding one step of the first join. -/
theorem joinItems_cons (r : Rating) (rs : List Rating) (movies : List Movie) :
    joinItems (r :: rs) movies =
      ((movies.filter fun m => m.movie_id == r.item_id).map fun m => (r, m)) ++
        joinItems rs movies := by
  simp [joinItems]

/-- With distinct movie keys, the first join yields at most one row per
rating. -/
theorem joinItems_length_le (ratings : List Rating) (movies : List Movie)
    (hm : (movies.map Movie.movie_id).Nodup) :
    (joinItems ratings movies).length ≤ ratings.length := by
  induction ratings with
  | nil => simp [joinItems]
  | cons r rs ih =>
    rw [joinItems_cons]
    have h1 := length_filter_key_le_one movies Movie.movie_id r.item_id hm
    rw [List.length_append, List.length_map]
    simp only [List.length_cons]
    omega

/-- With distinct movie keys, the first join preserves cardinality
exactly when every rating's item has a match. -/
theorem joinItems_length_eq_iff (ratings : List Rating) (movies : List Movie)
    (hm : (movies.map Movie.movie_id).Nodup) :
    (joinItems ratings movies).length = ratings.length ↔
      ∀ r ∈ ratings, ∃ m ∈ movies, m.movie_id = r.item_id := by
  induction ratings with
  | nil => simp [joinItems]
  | cons r rs ih =>
    rw [joinItems_cons]
    have h1 := length_filter_key_le_one movies Movie.movie_id r.item_id hm
    have h2 := length_filter_key_pos_iff movies Movie.movie_id r.item_id
    have h3 := joinItems_length_le rs movies hm
    rw [List.length_append, List.length_map, List.forall_mem_cons]
    simp only [List.length_cons]
    constructor
    · intro he
      refine ⟨h2.mp (by omega), ih.mp (by omega)⟩
    · rintro ⟨hr, hrs⟩
      have h4 := h2.mpr hr
      have h5 := ih.mpr hrs
      omega

/-- Unfolding one step of the second join. -/
theorem joinUsers_cons (p : Rating × Movie) (ps : List (Rating × Movie))
    (users : List User) :
    joinUsers (p :: ps) users =
      ((users.filter fun u => u.user_id == p.1.user_id).map fun u =>
        (⟨p.1.user_id, p.1.item_id, p.1.rating, p.2.flags, u.age, u.occupation⟩ : DRow)) ++
        joinUsers ps users := by
  simp [joinUsers]

/-- With distinct user keys, the second join yields at most one row per
intermediate row. -/
theorem joinUsers_length_le (ps : List (Rating × Movie)) (users : List User)
    (hu : (users.map User.user_id).Nodup) :
    (joinUsers ps users).length ≤ ps.length := by
  induction ps with
  | nil => simp [joinUsers]
  | cons p ps ih =>
    rw [joinUsers_cons]
    have h1 := length_filter_key_le_one users User.user_id p.1.user_id hu
    rw [List.length_append, List.length_map]
    simp only [List.length_cons]
    omega

/-- With distinct user keys, the second join preserves cardinality
exactly when every intermediate row's user has a match. -/
theorem joinUsers_length_eq_iff (ps : List (Rating × Movie)) (users : List User)
    (hu : (users.map User.user_id).Nodup) :
    (joinUsers ps users).length = ps.length ↔
      ∀ p ∈ ps, ∃ u ∈ users, u.user_id = p.1.user_id := by
  induction ps with
  | nil => simp [joinUsers]
  | cons p ps ih =>
    rw [joinUsers_cons]
    have h1 := length_filter_key_le_one users User.user_id p.1.user_id hu
    have h2 := length_filter_key_pos_iff users User.user_id p.1.user_id
    have h3 := joinUsers_length_le ps users hu
    rw [List.length_append, List.length_map, List.forall_mem_cons]
    simp only [List.length_cons]
    constructor
    · intro he
      refine ⟨h2.mp (by omega), ih.mp (by omega)⟩
    · rintro ⟨hp, hps⟩
      have h4 := h2.mpr hp
      have h5 := ih.mpr hps
      omega

/-- Every row of the first join comes from a rating of the input. -/
theorem mem_joinItems_fst {p : Rating × Movie} {ratings : List Rating}
    {movies : List Movie} (hp : p ∈ joinItems ratings movies) : p.1 ∈ ratings := by
  unfold joinItems at hp
  rw [List.mem_flatMap] at hp
  obtain ⟨r, hr, hmem⟩ := hp
  obtain ⟨m, _, rfl⟩ := List.mem_map.mp hmem
  exact hr

/-- A rating whose item has a match survives into the first join. -/
theorem exists_mem_joinItems {r : Rating} {ratings : List Rating}
    {movies : List Movie} (hr : r ∈ ratings)
    (hmm : ∃ m ∈ movies, m.movie_id = r.item_id) :
    ∃ p ∈ joinItems ratings movies, p.1 = r := by
  obtain ⟨m, hm, hkey⟩ := hmm
  refine ⟨(r, m), ?_, rfl⟩
  unfold joinItems
  rw [List.mem_flatMap]
  exact ⟨r, hr, List.mem_map_of_mem _
    (List.mem_filter.mpr ⟨hm, by simpa using hkey⟩)⟩

/-- C6 counterexample: with a duplicated movie key the merged frame has
more rows than the ratings table, violating the claimed cardinality
bound. -/
theorem c6_counterexample :
    (mergeAll cRatings [⟨1, cFlags⟩, ⟨1, cFlags⟩] cUsers).length = 2 ∧
    cRatings.length = 1 ∧
    ¬ (mergeAll cRatings [⟨1, cFlags⟩, ⟨1, cFlags⟩] cUsers).length ≤ cRatings.length := by
  decide

/-- C6 (amended): when the movie and user tables are keyed (no duplicate
`movie_id` or `user_id`), the two inner joins produce at most one
denormalized row per interaction, with equality exactly when every
interaction's item and user keys have matches; unmatched interactions
are dropped with no error signal. -/
theorem c6_join_cardinality (ratings : List Rating) (movies : List Movie)
    (users : List User) (hm : (movies.map Movie.movie_id).Nodup)
    (hu : (users.map User.user_id).Nodup) :
    (mergeAll ratings movies users).length ≤ ratings.length ∧
    ((mergeAll ratings movies users).length = ratings.length ↔
      ∀ r ∈ ratings, (∃ m ∈ movies, m.movie_id = r.item_id) ∧
        ∃ u ∈ users, u.user_id = r.user_id) := by
  have hle1 := joinItems_length_le ratings movies hm
  have hle2 := joinUsers_length_le (joinItems ratings movies) users hu
  have hmerge : mergeAll ratings movies users = joinUsers (joinItems ratings movies) users := rfl
  rw [hmerge]
  refine ⟨le_trans hle2 hle1, ?_⟩
  constructor
  · intro he
    have e1 : (joinItems ratings movies).length = ratings.length := by omega
    have e2 : (joinUsers (joinItems ratings movies) users).length =
        (joinItems ratings movies).length := by omega
    have hall1 := (joinItems_length_eq_iff ratings movies hm).mp e1
    have hall2 := (joinUsers_length_eq_iff (joinItems ratings movies) users hu).mp e2
    intro r hr
    refine ⟨hall1 r hr, ?_⟩
    obtain ⟨p, hp, hpr⟩ := exists_mem_joinItems hr (hall1 r hr)
    have h := hall2 p hp
    rw [hpr] at h
    exact h
  · intro hall
    have e1 : (joinItems ratings movies).length = ratings.length :=
      (joinItems_length_eq_iff ratings movies hm).mpr fun r hr => (hall r hr).1
    have e2 : (joinUsers (joinItems ratings movies) users).length =
        (joinItems ratings movies).length :=
      (joinUsers_length_eq_iff (joinItems ratings movies) users hu).mpr
        fun p hp => (hall p.1 (mem_joinItems_fst hp)).2
    omega

/-- C6 witness: on the keyed single-interaction scenario the merged
cardinality equals the ratings cardinality, and indeed both keys match. -/
theorem c6_join_cardinality_witness :
    (mergeAll cRatings cMovies cUsers).length ≤ cRatings.length ∧
    ((mergeAll cRatings cMovies cUsers).length = cRatings.length ↔
      ∀ r ∈ cRatings, (∃ m ∈ cMovies, m.movie_id = r.item_id) ∧
        ∃ u ∈ cUsers, u.user_id = r.user_id) :=
  c6_join_cardinality cRatings cMovies cUsers (by decide) (by decide)

/-! ## C7: order independence of the aggregation -/

/-- C7: permuting the merged rows changes no group's summed vector, no
group's top-5 genre list, and no membership of the result index. -/
theorem c7_order_independence (rows rows' : List DRow) (h : rows.Perm rows') :
    (∀ k : String × String, groupSum rows k = groupSum rows' k) ∧
    (∀ k : String × String, top5 (groupSum rows k) = top5 (groupSum rows' k)) ∧
    ∀ k : String × String, k ∈ groupKeys rows ↔ k ∈ groupKeys rows' := by
  have hsum : ∀ k : String × String, groupSum rows k = groupSum rows' k := by
    intro k
    unfold groupSum
    refine List.map_congr_left fun i _ => ?_
    unfold colSum groupRows
    exact (((h.filter (inGroup k)).map _).sum_eq)
  refine ⟨hsum, fun k => by rw [hsum k], fun k => ?_⟩
  obtain ⟨l, o⟩ := k
  rw [mem_groupKeys, mem_groupKeys, (h.map DRow.occupation).mem_iff]

/-- C7 witness: swapping two concrete merged rows preserves the group
sums, the top-5 lists, and the result index. -/
theorem c7_order_independence_witness :
    (∀ k : String × String,
      groupSum [⟨1, 1, 5, cFlags, 22, "engineer"⟩, ⟨2, 1, 3, cFlags, 50, "doctor"⟩] k =
        groupSum [⟨2, 1, 3, cFlags, 50, "doctor"⟩, ⟨1, 1, 5, cFlags, 22, "engineer"⟩] k) ∧
    (∀ k : String × String,
      top5 (groupSum [⟨1, 1, 5, cFlags, 22, "engineer"⟩, ⟨2, 1, 3, cFlags, 50, "doctor"⟩] k) =
        top5 (groupSum [⟨2, 1, 3, cFlags, 50, "doctor"⟩, ⟨1, 1, 5, cFlags, 22, "engineer"⟩] k)) ∧
    ∀ k : String × String,
      k ∈ groupKeys [⟨1, 1, 5, cFlags, 22, "engineer"⟩, ⟨2, 1, 3, cFlags, 50, "doctor"⟩] ↔
        k ∈ groupKeys [⟨2, 1, 3, cFlags, 50, "doctor"⟩, ⟨1, 1, 5, cFlags, 22, "engineer"⟩] :=
  c7_order_independence _ _ (List.Perm.swap _ _ _)


end SentStream
